import Mathlib

/-!
Verification of the OpenAL sound output backend
(`src/sound/outputs/openal_out.cpp`).

The development shallowly embeds the pure decision logic of the file:
the format negotiator `getALFormat`, the error-check gate `checkALError`,
the factory construction/destruction effect on device handles, the
reference-counting effect of sound construction/cloning/destruction, and
the volume clamp of `setVolume`.  Device calls are modelled by explicit
environments (extension presence, enum lookup results, injected device
error codes) and by traces of the device calls issued.
-/

/-! ## Constants from the OpenAL headers -/

def AL_NO_ERROR : Int := 0

def AL_FORMAT_MONO8 : Int := 0x1100

def AL_FORMAT_MONO16 : Int := 0x1101

def AL_FORMAT_STEREO8 : Int := 0x1102

def AL_FORMAT_STEREO16 : Int := 0x1103

/-! ## Helper functions (`fail`, `checkALError`) -/

/-- Embeds `fail` (openal_out.cpp:11-12): every raised message is the
argument prefixed with `"OpenAL exception: "`. -/
def failMsg (msg : String) : String := "OpenAL exception: " ++ msg

/-- Embeds `checkALError` (openal_out.cpp:24-37).  `err` is the code
returned by `alGetError()`, `errmsg` the (possibly null) string returned
by `alGetString(err)`, `w` the `where` description.  The source reads
`alGetString(err)` twice; both reads are the same device answer `errmsg`.
Normal return is `Except.ok ()`, a raised exception is `Except.error`
carrying the exception's message. -/
def checkALError (err : Int) (errmsg : Option String) (w : String) :
    Except String Unit :=
  if err ≠ AL_NO_ERROR then
    match errmsg with
    | some m => Except.error (failMsg ("\"" ++ m ++ "\"" ++ " while " ++ w))
    | none => Except.error (failMsg ("non-specified error while " ++ w ++
        " (did you forget to initialize OpenAL?)"))
  else Except.ok ()

/-- `containsStr s x`: the string `x` occurs contiguously inside `s`. -/
def containsStr (s x : String) : Prop := ∃ a b, s = a ++ x ++ b

/-! ## Format negotiator (`getALFormat`) -/

/-- The device environment seen by `getALFormat`:
whether `alIsExtensionPresent("AL_EXT_MCFORMATS")` holds, and the result
of `alGetEnumValue` for a format name (0 when the name is unknown). -/
structure ALEnv where
  extMCFormats : Bool
  alGetEnumValue : String → Int

/-- Embeds the body of `getALFormat` (openal_out.cpp:44-66) acting on the
local `fmt`: starting from `fmt = 0`, each executed `fmt = …` assignment
is applied in source order.  The result is the final `fmt` together with
the list of values assigned to `fmt` (in order), which records how many
times and with what values `fmt` was written. -/
def getALFormatAux (env : ALEnv) (ch bits : Int) : Int × List Int :=
  let asn := fun (st : Int × List Int) (v : Int) => (v, st.2 ++ [v])
  let st : Int × List Int := (0, [])
  let st := if bits = 8 then
      let st := if ch = 1 then asn st AL_FORMAT_MONO8 else st
      let st := if ch = 2 then asn st AL_FORMAT_STEREO8 else st
      if env.extMCFormats then
        let st := if ch = 4 then asn st (env.alGetEnumValue "AL_FORMAT_QUAD8") else st
        if ch = 6 then asn st (env.alGetEnumValue "AL_FORMAT_51CHN8") else st
      else st
    else st
  let st := if bits = 16 then
      let st := if ch = 1 then asn st AL_FORMAT_MONO16 else st
      let st := if ch = 2 then asn st AL_FORMAT_STEREO16 else st
      let st := if ch = 4 then asn st (env.alGetEnumValue "AL_FORMAT_QUAD16") else st
      if env.extMCFormats then
        let st := if ch = 4 then asn st (env.alGetEnumValue "AL_FORMAT_QUAD16") else st
        if ch = 6 then asn st (env.alGetEnumValue "AL_FORMAT_51CHN16") else st
      else st
    else st
  st

/-- Embeds `getALFormat` (openal_out.cpp:39-70): the sample source reports
`rate`, `ch`, `bits`; on `fmt = 0` the function raises
`fail("Unsupported input format")`, otherwise it returns the resolved
format tag together with the reported rate. -/
def getALFormat (env : ALEnv) (rate ch bits : Int) : Except String (Int × Int) :=
  let fmt := (getALFormatAux env ch bits).1
  if fmt = 0 then Except.error (failMsg "Unsupported input format")
  else Except.ok (fmt, rate)

/-! ## Device/context lifecycle manager (`OpenAL_Factory`) -/

/-- The device environment seen by the factory constructor: whether
`alcOpenDevice(NULL)` returns a non-null handle, and whether
`alcCreateContext(Device, NULL)` returns a non-null handle. -/
structure ALCEnv where
  openDeviceNonNull : Bool
  createContextNonNull : Bool

/-- Outcome of running `OpenAL_Factory::OpenAL_Factory`: which native
handles are live (opened/created and not released) when the constructor
finishes or throws, whether the context was made current, and whether the
constructor returned normally (`ok`) or threw (`error` with the message). -/
structure FactoryCtorResult where
  liveDevice : Bool
  liveContext : Bool
  contextCurrent : Bool
  result : Except String Unit

/-- Embeds `OpenAL_Factory::OpenAL_Factory(bool)` (openal_out.cpp:74-94).
With `doSetup`, the constructor opens the device, creates the context,
and throws via `fail` when either handle is null; the source performs no
release of already-obtained handles before throwing, so a handle is live
exactly when the corresponding call returned non-null.  Only on the
success path is the context made current. -/
def factoryConstruct (env : ALCEnv) (doSetup : Bool) : FactoryCtorResult :=
  if doSetup then
    let dev := env.openDeviceNonNull
    let ctx := env.createContextNonNull
    if !dev || !ctx then
      { liveDevice := dev, liveContext := ctx, contextCurrent := false,
        result := Except.error (failMsg "Failed to initialize context or device") }
    else
      { liveDevice := true, liveContext := true, contextCurrent := true,
        result := Except.ok () }
  else
    { liveDevice := false, liveContext := false, contextCurrent := false,
      result := Except.ok () }

/-- The teardown device calls `OpenAL_Factory::~OpenAL_Factory` can issue. -/
inductive ALCCall where
  | makeContextCurrentNull
  | destroyContext
  | closeDevice
deriving DecidableEq, Repr

/-- Embeds `OpenAL_Factory::~OpenAL_Factory` (openal_out.cpp:96-105) as the
trace of device calls it issues, given the `didSetup` flag and whether the
`Context` and `Device` members are non-null. -/
def factoryDestruct (didSetup ctxNonNull devNonNull : Bool) : List ALCCall :=
  if didSetup then
    let tr : List ALCCall := [ALCCall.makeContextCurrentNull]
    let tr := if ctxNonNull then tr ++ [ALCCall.destroyContext] else tr
    let tr := if devNonNull then tr ++ [ALCCall.closeDevice] else tr
    tr
  else []

/-! ## Reference counting of the shared buffer (`OpenAL_Sound`)

The counter is a heap-allocated `int`; we model the heap as a `List Int`
of adjacent `int`-sized cells and a pointer as an index into it, because
the clone constructor performs pointer arithmetic on `refCnt`. -/

def heapGet (h : List Int) (p : Nat) : Int := h.getD p 0

def heapSet (h : List Int) (p : Nat) (v : Int) : List Int := h.set p v

/-- An `OpenAL_Sound` as far as reference counting is concerned: the value
of its `int *refCnt` member, i.e. the heap index it points at. -/
structure SoundHandle where
  refPtr : Nat
deriving DecidableEq, Repr

/-- World state for the reference-counting model: the heap of counter
cells, and how many times `alDeleteBuffers` on the shared buffer and
`delete refCnt` have been executed. -/
structure RefWorld where
  heap : List Int
  bufferDeletes : Nat
  counterFrees : Nat
deriving DecidableEq, Repr

/-- Embeds the reference-counter effect of the original constructor
`OpenAL_Sound::OpenAL_Sound(SampleSourcePtr)` (openal_out.cpp:222-224):
`refCnt = new int; *refCnt = 1;` — the fresh cell at `addr` is set to 1
and the new instance's `refCnt` points at it.  (Format negotiation,
buffer upload and source creation are modelled separately and do not
touch the counter.) -/
def originalConstruct (w : RefWorld) (addr : Nat) : RefWorld × SoundHandle :=
  ({ w with heap := heapSet w.heap addr 1 }, { refPtr := addr })

/-- Embeds the reference-counter effect of the clone constructor
`OpenAL_Sound::OpenAL_Sound(ALuint, int*)` (openal_out.cpp:173-185).
The statement `*refCnt++;` parses as `*(refCnt++)`: it post-increments
the pointer member `refCnt` and discards the dereferenced value.  Hence
the heap is unchanged and the new instance's pointer is `ref + 1`. -/
def cloneConstruct (w : RefWorld) (ref : Nat) : RefWorld × SoundHandle :=
  (w, { refPtr := ref + 1 })

/-- Embeds the reference-counter effect of `OpenAL_Sound::~OpenAL_Sound`
(openal_out.cpp:227-244): decrement `*refCnt`; when the decremented value
is 0, delete the shared buffer and free the counter cell. -/
def soundDestructHeap (w : RefWorld) (s : SoundHandle) : RefWorld :=
  let v := heapGet w.heap s.refPtr - 1
  let h := heapSet w.heap s.refPtr v
  if v = 0 then
    { heap := h, bufferDeletes := w.bufferDeletes + 1,
      counterFrees := w.counterFrees + 1 }
  else
    { w with heap := h }

/-! ## Error propagation out of `~OpenAL_Sound` -/

/-- OpenAL error-flag semantics: the flag keeps the first error raised
since the last `alGetError()`; later errors do not overwrite it. -/
def alErrMerge (pending e : Int) : Int := if pending = 0 then e else pending

/-- Embeds `OpenAL_Sound::~OpenAL_Sound` (openal_out.cpp:227-244) with the
device error flag made explicit.  `pending` is the error flag on entry;
`errStop`, `errDelSources`, `errDelBuffers` are the errors (0 = none) the
calls `alSourceStop`, `alDeleteSources`, `alDeleteBuffers` raise; `msgOf`
is the device's `alGetString`.  Neither `alSourceStop` nor
`alDeleteSources` is followed by a gate check in the source; the only
gate in the destructor is `checkALError("deleting buffer")`, executed
when the decremented counter is 0.  The result is `ok` with the new
counter value when the destructor returns, `error` when it throws. -/
def soundDestructErr (pending errStop errDelSources errDelBuffers : Int)
    (msgOf : Int → Option String) (cnt : Int) : Except String Int :=
  let pending := alErrMerge pending errStop
  let pending := alErrMerge pending errDelSources
  let cnt := cnt - 1
  if cnt = 0 then
    let pending := alErrMerge pending errDelBuffers
    match checkALError pending (msgOf pending) "deleting buffer" with
    | Except.ok _ => Except.ok cnt
    | Except.error e => Except.error e
  else Except.ok cnt

/-! ## Volume clamping (`OpenAL_Sound::setVolume`) -/

/-- Embeds the value handed to `alSourcef(inst, AL_GAIN, volume)` by
`OpenAL_Sound::setVolume` (openal_out.cpp:135-141): the two sequential
clamping conditionals applied to the argument. -/
def setVolumeClamped (volume : ℚ) : ℚ :=
  let volume := if volume > 1 then 1 else volume
  let volume := if volume < 0 then 0 else volume
  volume

/-! ## Theorems -/

/-- C3: for (channels, bits) in {(1,8),(2,8),(1,16),(2,16)} format
resolution succeeds with the corresponding fixed tag and the source's
stated rate; with no multichannel extension present, (3,8) and (5,16)
fail with the unsupported-input-format error; and in general any
combination resolving no tag fails with that error. -/
theorem getALFormat_fixed_cases (env : ALEnv) (rate : Int)
    (h : env.extMCFormats = false) :
    getALFormat env rate 1 8 = Except.ok (AL_FORMAT_MONO8, rate) ∧
    getALFormat env rate 2 8 = Except.ok (AL_FORMAT_STEREO8, rate) ∧
    getALFormat env rate 1 16 = Except.ok (AL_FORMAT_MONO16, rate) ∧
    getALFormat env rate 2 16 = Except.ok (AL_FORMAT_STEREO16, rate) ∧
    getALFormat env rate 3 8 = Except.error "OpenAL exception: Unsupported input format" ∧
    getALFormat env rate 5 16 = Except.error "OpenAL exception: Unsupported input format" ∧
    (∀ ch bits : Int, (getALFormatAux env ch bits).1 = 0 →
      getALFormat env rate ch bits = Except.error "OpenAL exception: Unsupported input format") := by
  refine ⟨?_, ?_, ?_, ?_, ?_, ?_, ?_⟩
  · simp [getALFormat, getALFormatAux, h, AL_FORMAT_MONO8, failMsg]
  · simp [getALFormat, getALFormatAux, h, AL_FORMAT_STEREO8, failMsg]
  · simp [getALFormat, getALFormatAux, h, AL_FORMAT_MONO16, failMsg]
  · simp [getALFormat, getALFormatAux, h, AL_FORMAT_STEREO16, failMsg]
  · simp [getALFormat, getALFormatAux, h, failMsg]
  · simp [getALFormat, getALFormatAux, h, failMsg]
  · intro ch bits hz
    simp [getALFormat, hz, failMsg]

/-- Witness for C3 at a concrete environment with the extension absent. -/
theorem getALFormat_fixed_cases_witness :
    getALFormat ⟨false, fun _ => 0⟩ 44100 1 8 = Except.ok (AL_FORMAT_MONO8, 44100) :=
  (getALFormat_fixed_cases ⟨false, fun _ => 0⟩ 44100 rfl).1

/-- C4: with the multichannel extension present, `fmt` is assigned twice
for a 16-bit 4-channel source — both times with the value of the
`AL_FORMAT_QUAD16` enum lookup — the last (extension-branch) assignment
wins, and the resolved result is identical to what the same environment
without the extension (the first assignment alone) produces. -/
theorem quad16_double_assignment (env : ALEnv) (rate : Int)
    (h : env.extMCFormats = true) :
    (getALFormatAux env 4 16).2 =
      [env.alGetEnumValue "AL_FORMAT_QUAD16", env.alGetEnumValue "AL_FORMAT_QUAD16"] ∧
    (getALFormatAux env 4 16).1 = env.alGetEnumValue "AL_FORMAT_QUAD16" ∧
    getALFormat env rate 4 16 =
      getALFormat ⟨false, env.alGetEnumValue⟩ rate 4 16 := by
  refine ⟨?_, ?_, ?_⟩
  · simp [getALFormatAux, h]
  · simp [getALFormatAux, h]
  · simp [getALFormat, getALFormatAux, h]

/-- Witness for C4 at a concrete environment with the extension present. -/
theorem quad16_double_assignment_witness :
    (getALFormatAux ⟨true, fun _ => 4613⟩ 4 16).2 = [4613, 4613] :=
  (quad16_double_assignment ⟨true, fun _ => 4613⟩ 44100 rfl).1

/-- C5: the error-check gate with description `d` returns normally when no
error is pending; when an error is pending and the device supplies a
textual message `m`, it fails with a message containing the quoted device
message, the literal `" while "`, and `d`; when an error is pending but
no textual message is available, it fails with a message containing `d`
and the did-you-forget-to-initialize hint. -/
theorem checkALError_cases (err : Int) (errmsg : Option String) (d : String) :
    (err = 0 → checkALError err errmsg d = Except.ok ()) ∧
    (err ≠ 0 → ∀ m, errmsg = some m →
      ∃ e, checkALError err errmsg d = Except.error e ∧
        containsStr e ("\"" ++ m ++ "\"") ∧ containsStr e " while " ∧ containsStr e d) ∧
    (err ≠ 0 → errmsg = none →
      ∃ e, checkALError err errmsg d = Except.error e ∧ containsStr e d ∧
        containsStr e "(did you forget to initialize OpenAL?)") := by
  refine ⟨?_, ?_, ?_⟩
  · intro h
    simp [checkALError, h, AL_NO_ERROR]
  · intro h m hm
    subst hm
    refine ⟨failMsg ("\"" ++ m ++ "\"" ++ " while " ++ d), ?_, ?_, ?_, ?_⟩
    · simp [checkALError, AL_NO_ERROR, h]
    · exact ⟨"OpenAL exception: ", " while " ++ d, by
        simp only [failMsg, String.append_assoc]⟩
    · exact ⟨"OpenAL exception: " ++ ("\"" ++ m ++ "\""), d, by
        simp only [failMsg, String.append_assoc]⟩
    · exact ⟨"OpenAL exception: " ++ ("\"" ++ m ++ "\"" ++ " while "), "", by
        simp only [failMsg, String.append_assoc, String.append_empty]⟩
  · intro h hm
    subst hm
    refine ⟨failMsg ("non-specified error while " ++ d ++
      " (did you forget to initialize OpenAL?)"), ?_, ?_, ?_⟩
    · simp [checkALError, AL_NO_ERROR, h]
    · exact ⟨"OpenAL exception: " ++ "non-specified error while ",
        " (did you forget to initialize OpenAL?)", by
        simp only [failMsg, String.append_assoc]⟩
    · have hsplit : (" (did you forget to initialize OpenAL?)" : String) =
          " " ++ "(did you forget to initialize OpenAL?)" := by decide
      exact ⟨"OpenAL exception: " ++ "non-specified error while " ++ d ++ " ", "", by
        simp only [failMsg, hsplit, String.append_assoc, String.append_empty]⟩

/-- Witness for C5: a pending error with a device message, at the
description `"starting playback"`. -/
theorem checkALError_cases_witness :
    ∃ e, checkALError 40961 (some "Invalid Name") "starting playback" = Except.error e ∧
      containsStr e ("\"" ++ "Invalid Name" ++ "\"") ∧ containsStr e " while " ∧
      containsStr e "starting playback" :=
  (checkALError_cases 40961 (some "Invalid Name") "starting playback").2.1
    (by decide) "Invalid Name" rfl

/-- C1 (code bug): the clone constructor's `*refCnt++;` post-increments
the pointer, not the counter.  With the shared counter holding 1 at
address 0, clone construction leaves the counter at 1 (the claim requires
2) and leaves the clone's counter pointer at the adjacent address 1. -/
theorem clone_does_not_increment_counter :
    heapGet (cloneConstruct ⟨[1, 0], 0, 0⟩ 0).1.heap 0 = 1 ∧
    ¬ heapGet (cloneConstruct ⟨[1, 0], 0, 0⟩ 0).1.heap 0 = 2 ∧
    (cloneConstruct ⟨[1, 0], 0, 0⟩ 0).2.refPtr = 1 := by decide

/-- C2 (code bug): because cloning fails to increment the shared counter,
constructing an original (counter cell 0, value 1) and one clone and then
destroying the original alone already drives the counter to 0 and
executes the buffer deletion and the counter free — while the clone still
exists.  The clone's later destruction decrements the adjacent cell 1
instead of the counter. -/
theorem last_owner_free_happens_early :
    let w0 : RefWorld := ⟨[0, 0], 0, 0⟩
    let p1 := originalConstruct w0 0
    let p2 := cloneConstruct p1.1 p1.2.refPtr
    let w3 := soundDestructHeap p2.1 p1.2
    heapGet w3.heap 0 = 0 ∧ w3.bufferDeletes = 1 ∧ w3.counterFrees = 1 ∧
    p2.2.refPtr = 1 ∧
    (soundDestructHeap w3 p2.2).bufferDeletes = 1 ∧
    heapGet (soundDestructHeap w3 p2.2).heap 1 = -1 := by decide

/-- C6 counterexample: with setup requested, the device opening
succeeding and the context creation returning null, construction raises
the setup failure but the opened device handle remains live — the claim
that no opened device remains live after the failure is false. -/
theorem factory_setup_leak_counterexample :
    (factoryConstruct ⟨true, false⟩ true).result =
      Except.error "OpenAL exception: Failed to initialize context or device" ∧
    (factoryConstruct ⟨true, false⟩ true).liveDevice = true :=
  ⟨rfl, rfl⟩

/-- C6 (amended): with setup requested, whenever the device handle or the
context handle comes back null, construction raises the setup failure and
never makes the context current; but the handles already obtained are not
released — each remains live exactly when its creating call returned
non-null. -/
theorem factoryConstruct_failure_amended (env : ALCEnv)
    (h : env.openDeviceNonNull = false ∨ env.createContextNonNull = false) :
    (factoryConstruct env true).result =
      Except.error "OpenAL exception: Failed to initialize context or device" ∧
    (factoryConstruct env true).contextCurrent = false ∧
    (factoryConstruct env true).liveDevice = env.openDeviceNonNull ∧
    (factoryConstruct env true).liveContext = env.createContextNonNull := by
  rcases h with h | h <;> simp [factoryConstruct, h, failMsg]

/-- Witness for C6's amended theorem: device non-null, context null. -/
theorem factoryConstruct_failure_amended_witness :
    (factoryConstruct ⟨true, false⟩ true).result =
      Except.error "OpenAL exception: Failed to initialize context or device" ∧
    (factoryConstruct ⟨true, false⟩ true).contextCurrent = false ∧
    (factoryConstruct ⟨true, false⟩ true).liveDevice = true ∧
    (factoryConstruct ⟨true, false⟩ true).liveContext = false :=
  factoryConstruct_failure_amended ⟨true, false⟩ (Or.inr rfl)

/-- C7 counterexample: on the last owner (counter 1), a device error
raised by `alDeleteBuffers` reaches the destructor's
`checkALError("deleting buffer")` gate, and destruction raises — the
claim that destruction never propagates a failure is false. -/
theorem soundDestruct_raises_counterexample :
    soundDestructErr 0 0 0 40964 (fun _ => some "Invalid Operation") 1 =
      Except.error "OpenAL exception: \"Invalid Operation\" while deleting buffer" :=
  rfl

/-- C7 (amended): destruction issues no gate check after stopping or
releasing the source, so a non-last-owner destruction never raises, for
any device errors during teardown; on the last owner the buffer release
is gate-checked, and destruction completes without raising exactly when
no device error is pending at that gate. -/
theorem soundDestruct_best_effort_amended
    (pending errStop errDelSources errDelBuffers : Int)
    (msgOf : Int → Option String) (cnt : Int) :
    (cnt - 1 ≠ 0 →
      soundDestructErr pending errStop errDelSources errDelBuffers msgOf cnt =
        Except.ok (cnt - 1)) ∧
    (pending = 0 → errStop = 0 → errDelSources = 0 → errDelBuffers = 0 →
      soundDestructErr pending errStop errDelSources errDelBuffers msgOf cnt =
        Except.ok (cnt - 1)) := by
  constructor
  · intro h
    simp [soundDestructErr, h]
  · intro h0 h1 h2 h3
    simp [soundDestructErr, alErrMerge, checkALError, AL_NO_ERROR, h0, h1, h2, h3]

/-- Witness for C7's amended theorem: a non-last owner (counter 3)
with device errors injected at every un-gated teardown call. -/
theorem soundDestruct_best_effort_amended_witness :
    soundDestructErr 0 40961 40962 40963 (fun _ => none) 3 = Except.ok 2 :=
  (soundDestruct_best_effort_amended 0 40961 40962 40963 (fun _ => none) 3).1 (by decide)

/-- C8: a factory that performed setup tears down with exactly the
sequence unbind-current-context, then destroy-context when non-null, then
close-device when non-null, in that order; a factory that did not perform
setup issues zero teardown calls. -/
theorem factoryDestruct_sequence (c d : Bool) :
    factoryDestruct false c d = [] ∧
    factoryDestruct true true true =
      [ALCCall.makeContextCurrentNull, ALCCall.destroyContext, ALCCall.closeDevice] ∧
    factoryDestruct true c d =
      [ALCCall.makeContextCurrentNull] ++
        (if c then [ALCCall.destroyContext] else []) ++
        (if d then [ALCCall.closeDevice] else []) := by
  refine ⟨rfl, rfl, ?_⟩
  cases c <;> cases d <;> rfl

/-- C9: `setVolume` applies `min (max v 0) 1` to the device gain — the
two sequential clamping conditionals equal that clamp for every input;
in particular -1/2 clamps to 0, 17/10 clamps to 1, and 3/10 is applied
unchanged. -/
theorem setVolume_clamps (v : ℚ) :
    setVolumeClamped v = min (max v 0) 1 ∧
    setVolumeClamped (-(1/2)) = 0 ∧
    setVolumeClamped (17/10) = 1 ∧
    setVolumeClamped (3/10) = 3/10 := by
  refine ⟨?_, by norm_num [setVolumeClamped], by norm_num [setVolumeClamped],
    by norm_num [setVolumeClamped]⟩
  by_cases h1 : v > 1
  · have hn : ¬ ((1 : ℚ) < 0) := by norm_num
    simp only [setVolumeClamped, if_pos h1, if_neg hn]
    rw [max_eq_left (le_of_lt (lt_trans zero_lt_one h1)), min_eq_right (le_of_lt h1)]
  · by_cases h2 : v < 0
    · simp only [setVolumeClamped, if_neg h1, if_pos h2]
      rw [max_eq_right (le_of_lt h2), min_eq_left (by norm_num)]
    · simp only [setVolumeClamped, if_neg h1, if_neg h2]
      rw [max_eq_left (not_lt.mp h2), min_eq_left (not_lt.mp h1)]

/-- C10: for a 16-bit 4-channel source with the multichannel extension
absent, the resolved tag is whatever the runtime enum lookup for
`"AL_FORMAT_QUAD16"` returns: when the lookup yields 0 resolution fails
with the unsupported-input-format error even though the 4-channel/16-bit
branch was taken, and when it yields a non-zero value resolution returns
exactly that value. -/
theorem quad16_runtime_lookup (env1 env2 : ALEnv) (rate v : Int)
    (h1 : env1.extMCFormats = false)
    (h2 : env1.alGetEnumValue "AL_FORMAT_QUAD16" = 0)
    (h3 : env2.extMCFormats = false)
    (h4 : env2.alGetEnumValue "AL_FORMAT_QUAD16" = v) (h5 : v ≠ 0) :
    getALFormat env1 rate 4 16 =
      Except.error "OpenAL exception: Unsupported input format" ∧
    getALFormat env2 rate 4 16 = Except.ok (v, rate) := by
  constructor
  · simp [getALFormat, getALFormatAux, h1, h2, failMsg]
  · simp [getALFormat, getALFormatAux, h3, h4, h5, failMsg]

/-- Witness for C10: a failing lookup environment and a succeeding one. -/
theorem quad16_runtime_lookup_witness :
    getALFormat ⟨false, fun _ => 0⟩ 48000 4 16 =
      Except.error "OpenAL exception: Unsupported input format" ∧
    getALFormat ⟨false, fun _ => 4613⟩ 48000 4 16 = Except.ok (4613, 48000) :=
  quad16_runtime_lookup ⟨false, fun _ => 0⟩ ⟨false, fun _ => 4613⟩ 48000 4613
    rfl rfl rfl rfl (by decide)
